import Mathlib

/-!
Verification of the OAuth 2.0 token-lifecycle core of the spotify-mcp server.

The definitions below are a shallow embedding of the TypeScript source:
`src/spotify/auth.ts` (token store, expiry check, refresh, OAuth callback
listener, HTML escaping) and `src/spotify/client.ts` (`getAuthenticatedClient`).
Ambient effects are made explicit: `Date.now()` becomes a `now : Int`
parameter (milliseconds), network exchanges become `Except`-valued oracles,
the callback listener's mutable closure state becomes a `ServerState` record
threaded through a step function, and the token file becomes a small
`FileSystem` record.  JavaScript truthiness of optional strings (`null`,
`undefined` and `""` are falsy) is modelled by `jsTruthy` / `jsOrElse`.
-/

namespace Spotify

/-- The persisted token record (`StoredTokens` in `src/types.ts`):
`{accessToken: string, refreshToken: string, expiresAt: integer ms since epoch}`. -/
structure StoredTokens where
  accessToken : String
  refreshToken : String
  expiresAt : Int
  deriving Repr, DecidableEq

/-- JavaScript truthiness of a nullable string: `null`/`undefined` and the
empty string are falsy, every other string is truthy. -/
def jsTruthy : Option String → Bool
  | none => false
  | some s => decide (s ≠ "")

/-- JavaScript `x || y` on a nullable string `x` with string default `y`:
yields `y` exactly when `x` is falsy (absent or empty). -/
def jsOrElse (x : Option String) (dflt : String) : String :=
  match x with
  | none => dflt
  | some s => if s = "" then dflt else s

/-- Embeds `areTokensExpired` (auth module): returns whether
`tokens.expiresAt < Date.now() + 5 * 60 * 1000`, with `Date.now()` passed
explicitly as `now`. -/
def areTokensExpired (now : Int) (tokens : StoredTokens) : Bool :=
  decide (tokens.expiresAt < now + 5 * 60 * 1000)

/-- Body of the authorization server's refresh-grant response
(`data.body` of `client.refreshAccessToken()`); `refresh_token` is optional
because the server may omit it. -/
structure RefreshResponse where
  access_token : String
  refresh_token : Option String
  expires_in : Int
  deriving Repr, DecidableEq

/-- Embeds `refreshAccessToken` (auth module).  The network call's outcome is
the explicit `response` argument; on success the produced record keeps the old
refresh token when the server supplied none (`data.body.refresh_token ||
refreshToken`), and its expiry is `now + expires_in * 1000`.  The source then
persists exactly this record via `saveTokens` and returns it. -/
def refreshAccessToken (now : Int) (response : Except String RefreshResponse)
    (refreshToken : String) : Except String StoredTokens :=
  match response with
  | Except.error e => Except.error e
  | Except.ok data =>
      Except.ok { accessToken := data.access_token,
                  refreshToken := jsOrElse data.refresh_token refreshToken,
                  expiresAt := now + data.expires_in * 1000 }

/-- Body of the authorization server's code-grant response
(`data.body` of `client.authorizationCodeGrant(code)`). -/
structure GrantResponse where
  access_token : String
  refresh_token : String
  expires_in : Int
  deriving Repr, DecidableEq

/-- Embeds the per-character replacement table of `escapeHtml`
(`htmlEscapeMap`): the five HTML special characters map to entities,
every other character is returned unchanged. -/
def escapeChar (c : Char) : List Char :=
  if c = '&' then "&amp;".data
  else if c = '<' then "&lt;".data
  else if c = '>' then "&gt;".data
  else if c = '"' then "&quot;".data
  else if c = Char.ofNat 39 then ("&#39" ++ String.singleton (Char.ofNat 39)).data
  else [c]

/-- Character-list form of `escapeHtml`: `str.replace(/[&<>"']/g, ...)`
replaces every occurrence of the five special characters. -/
def escapeList : List Char → List Char
  | [] => []
  | c :: t => escapeChar c ++ escapeList t

/-- Embeds `escapeHtml` (auth module). -/
def escapeHtml (s : String) : String :=
  String.mk (escapeList s.data)

/-- Whether `needle` occurs as a contiguous substring of `hay`. -/
def containsSub (needle : List Char) : List Char → Bool
  | [] => needle.isEmpty
  | c :: t => needle.isPrefixOf (c :: t) || containsSub needle t

/-- Outcome of the one pending resolution of an authorization session:
the promise inside `startOAuthFlow` is either resolved with a token record
or rejected with an error message. -/
inductive Resolution where
  | success (tokens : StoredTokens)
  | failure (msg : String)
  deriving Repr, DecidableEq

/-- The mutable closure state of `startOAuthFlow`'s callback server:
`requestCount`, whether the promise has been settled (`resolution`), whether
`server.close()` has been issued (which releases the bound loopback port;
`serverClosed`), and the sequence of records written to the token store by
`saveTokens` during the session (`savedRecords`). -/
structure ServerState where
  requestCount : Nat
  resolution : Option Resolution
  serverClosed : Bool
  savedRecords : List StoredTokens
  deriving Repr, DecidableEq

/-- The closure state at the moment the server starts listening. -/
def initialServerState : ServerState :=
  { requestCount := 0, resolution := none, serverClosed := false, savedRecords := [] }

/-- An incoming HTTP request as the handler sees it: `req.socket.remoteAddress`
(absent on a destroyed socket), `req.url`, and the `code` / `state` / `error`
query parameters extracted by `new URL(req.url, ...)` — `searchParams.get`
yields `null` (here `none`) when the parameter is missing. -/
structure Request where
  remoteAddress : Option String
  url : Option String
  code : Option String
  state : Option String
  errParam : Option String
  deriving Repr, DecidableEq

/-- An HTTP response: status code, the `Content-Type` header value, and the
HTML body. -/
structure Response where
  status : Nat
  contentType : String
  body : String
  deriving Repr, DecidableEq

/-- The request cap of the callback server (`const MAX_REQUESTS = 5`). -/
def MAX_REQUESTS : Nat := 5

/-- The accepted loopback representations
(`['127.0.0.1', '::1', '::ffff:127.0.0.1']`). -/
def loopbackAddresses : List String := ["127.0.0.1", "::1", "::ffff:127.0.0.1"]

/-- The origin check `remoteAddress && !['127.0.0.1', '::1',
'::ffff:127.0.0.1'].includes(remoteAddress)`: true exactly when the request is
rejected with 403.  An absent or empty `remoteAddress` is falsy, so the whole
conjunction is falsy and the check is bypassed. -/
def rejectedByOrigin (remoteAddress : Option String) : Bool :=
  jsTruthy remoteAddress && !(loopbackAddresses.contains (remoteAddress.getD ""))

/-- The path check `req.url?.startsWith("/callback")`: an absent `req.url`
optional-chains to `undefined`, which is falsy.  `startsWith` is modelled on
the character lists of the strings. -/
def urlIsCallback : Option String → Bool
  | none => false
  | some u => "/callback".data.isPrefixOf u.data

/-- The `Content-Type` value every HTML response declares. -/
def htmlUtf8 : String := "text/html; charset=utf-8"

/-- The body of the error-parameter response: the only HTML response that
embeds query-string data, and it embeds it through `escapeHtml`. -/
def authorizationFailedBody (e : String) : String :=
  "<html><head><meta charset=\"utf-8\"></head><body><h1>Authorization failed</h1><p>"
    ++ escapeHtml e ++ "</p></body></html>"

/-- Embeds the request handler of `startOAuthFlow`'s callback server, in
source order: increment `requestCount`; over-quota 429; non-loopback 403;
non-`/callback` path 404; `error` parameter present resolves the session as
failure (200 page); `state` mismatch resolves as failure (400); missing
`code` resolves as failure (400); otherwise the code is exchanged via the
`exchange` oracle — success persists the record and resolves the session,
an exchange error resolves it as failure (500).  Every resolving branch calls
`server.close()` (modelled by `serverClosed := true`). -/
def handleRequest (expectedState : String) (now : Int)
    (exchange : String → Except String GrantResponse)
    (st : ServerState) (req : Request) : ServerState × Response :=
  let count := st.requestCount + 1
  if count > MAX_REQUESTS then
    ({ st with requestCount := count },
     { status := 429, contentType := htmlUtf8,
       body := "<html><head><meta charset=\"utf-8\"></head><body><h1>Too Many Requests</h1></body></html>" })
  else if rejectedByOrigin req.remoteAddress then
    ({ st with requestCount := count },
     { status := 403, contentType := htmlUtf8,
       body := "<html><head><meta charset=\"utf-8\"></head><body><h1>Forbidden</h1></body></html>" })
  else if !(urlIsCallback req.url) then
    ({ st with requestCount := count },
     { status := 404, contentType := htmlUtf8,
       body := "<html><head><meta charset=\"utf-8\"></head><body><h1>Not Found</h1></body></html>" })
  else if jsTruthy req.errParam then
    ({ st with
        requestCount := count, serverClosed := true,
        resolution := some (Resolution.failure ("Authorization failed: " ++ req.errParam.getD "")) },
     { status := 200, contentType := htmlUtf8,
       body := authorizationFailedBody (req.errParam.getD "") })
  else if req.state ≠ some expectedState then
    ({ st with
        requestCount := count, serverClosed := true,
        resolution := some (Resolution.failure "State mismatch in OAuth callback") },
     { status := 400, contentType := htmlUtf8,
       body := "<html><head><meta charset=\"utf-8\"></head><body><h1>State mismatch</h1><p>Invalid state parameter. Please try again.</p></body></html>" })
  else if !(jsTruthy req.code) then
    ({ st with
        requestCount := count, serverClosed := true,
        resolution := some (Resolution.failure "No authorization code received") },
     { status := 400, contentType := htmlUtf8,
       body := "<html><head><meta charset=\"utf-8\"></head><body><h1>No authorization code received</h1><p>The authorization process was incomplete. Please try again.</p></body></html>" })
  else
    match exchange (req.code.getD "") with
    | Except.ok data =>
        ({ st with
            requestCount := count, serverClosed := true,
            resolution := some (Resolution.success
              { accessToken := data.access_token, refreshToken := data.refresh_token,
                expiresAt := now + data.expires_in * 1000 }),
            savedRecords := st.savedRecords ++
              [{ accessToken := data.access_token, refreshToken := data.refresh_token,
                 expiresAt := now + data.expires_in * 1000 }] },
         { status := 200, contentType := htmlUtf8,
           body := "<html><head><meta charset=\"utf-8\"></head><body><h1>✓ Authorization successful!</h1><p>You can close this window and return to your application.</p></body></html>" })
    | Except.error e =>
        ({ st with
            requestCount := count, serverClosed := true,
            resolution := some (Resolution.failure e) },
         { status := 500, contentType := htmlUtf8,
           body := "<html><head><meta charset=\"utf-8\"></head><body><h1>Error exchanging authorization code</h1><p>An error occurred during authentication. Please try again.</p></body></html>" })

/-- The delay of the listener's own timeout (`5 * 60 * 1000` ms).  The source
installs it with `setTimeout` unconditionally; `startOAuthFlow` takes no
caller-supplied cancellation, so the timeout is enforced independently. -/
def timeoutDelayMs : Nat := 5 * 60 * 1000

/-- Embeds the timeout callback of `startOAuthFlow`: if the server has not
already closed, close it (releasing the bound port), mark it closed, and
reject the pending promise with the timeout error. -/
def onTimeout (st : ServerState) : ServerState :=
  if st.serverClosed then st
  else { st with
          serverClosed := true,
          resolution := some (Resolution.failure
            "OAuth flow timeout - no callback received within 5 minutes") }

/-- The environment `getAuthenticatedClient` runs in: the token store's
current content (`loadTokens`), the outcome an interactive login would have
(`startOAuthFlow`), the outcome of the refresh network call, and the clock. -/
structure AuthEnv where
  storedTokens : Option StoredTokens
  oauthResult : Except String StoredTokens
  refreshResponse : Except String RefreshResponse
  now : Int

/-- Embeds `getAuthenticatedClient` (`src/spotify/client.ts`): load stored
tokens; if absent run the OAuth flow; then, if the tokens are expired
(5-minute lookahead), refresh them.  Any error — including a refresh
failure — propagates to the caller; there is no catch and no fallback
re-login around the refresh call. -/
def getAuthenticatedClient (env : AuthEnv) : Except String StoredTokens :=
  match env.storedTokens with
  | none =>
      match env.oauthResult with
      | Except.error e => Except.error e
      | Except.ok t =>
          if areTokensExpired env.now t then
            refreshAccessToken env.now env.refreshResponse t.refreshToken
          else Except.ok t
  | some t =>
      if areTokensExpired env.now t then
        refreshAccessToken env.now env.refreshResponse t.refreshToken
      else Except.ok t

/-- The slice of the filesystem `saveTokens` touches: the token directory and
the token file, each with POSIX permission bits.  Created nodes receive
exactly the `mode` passed to `fs.mkdir` / `fs.writeFile` (the process umask
can only clear further bits, so omitting it is conservative for owner-only
properties); writing an existing file replaces its content but leaves its
permission bits untouched (POSIX `open(2)` applies `mode` only at creation). -/
structure FileSystem where
  dirExists : Bool
  dirMode : Nat
  fileExists : Bool
  fileMode : Nat
  fileContent : Option StoredTokens
  deriving Repr, DecidableEq

/-- Embeds `saveTokens` (auth module): `fs.mkdir(TOKEN_DIR, {recursive: true,
mode: 0o700})` creates the directory with mode `0o700` only if it is missing,
then `fs.writeFile(TOKEN_FILE, ..., {mode: 0o600})` writes the record — with
mode `0o600` if the file is being created, keeping the existing permission
bits if it already exists. -/
def saveTokens (fsys : FileSystem) (tokens : StoredTokens) : FileSystem :=
  let fs1 := if fsys.dirExists then fsys
             else { fsys with dirExists := true, dirMode := 0o700 }
  if fs1.fileExists then { fs1 with fileContent := some tokens }
  else { fs1 with fileExists := true, fileMode := 0o600, fileContent := some tokens }

/-- A stub exchange oracle used by concrete instances. -/
def exchangeStub : String → Except String GrantResponse :=
  fun _ => Except.error "exchange not attempted"

/-- Claim C1 (code bug): the spec — matching the repository's own design
document, which says refresh failures are handled "by re-triggering full
OAuth flow" — requires that a failed refresh clears the cached record and
re-runs the interactive login, so the caller still gets a usable token.
The code has no catch around `refreshAccessToken` in
`getAuthenticatedClient`: this theorem evaluates the façade at a stored
near-expiry record whose refresh fails while a full login would succeed,
and shows the refresh error propagates to the caller instead. -/
theorem c1_refresh_failure_propagates_to_caller :
    getAuthenticatedClient
      { storedTokens := some { accessToken := "acc", refreshToken := "ref", expiresAt := 0 },
        oauthResult := Except.ok
          { accessToken := "fresh", refreshToken := "fr", expiresAt := 2000000000 },
        refreshResponse := Except.error "AuthExchangeError",
        now := 1000000 } = Except.error "AuthExchangeError" := by
  rfl

/-- Claim C2, counterexample: the claim asserts a refresh is triggered when
the remaining lifetime is exactly at the 5-minute boundary, but
`areTokensExpired` uses a strict `<`: with `now = 0` and
`expiresAt = 5 * 60 * 1000` (exactly five minutes remaining) it returns
`false`, so no refresh is triggered. -/
theorem c2_boundary_counterexample :
    areTokensExpired 0
      { accessToken := "a", refreshToken := "r", expiresAt := 5 * 60 * 1000 } = false := by
  decide

/-- Claim C2 (amended): the façade triggers a refresh if and only if
`expiresAt - now` is strictly below 5 minutes; at exactly the boundary or
above it returns the stored record without refreshing. -/
theorem c2_refresh_iff_strictly_within_lookahead (env : AuthEnv) (t : StoredTokens)
    (h : env.storedTokens = some t) :
    (areTokensExpired env.now t = true ↔ t.expiresAt - env.now < 5 * 60 * 1000) ∧
    (t.expiresAt - env.now < 5 * 60 * 1000 →
      getAuthenticatedClient env =
        refreshAccessToken env.now env.refreshResponse t.refreshToken) ∧
    (5 * 60 * 1000 ≤ t.expiresAt - env.now → getAuthenticatedClient env = Except.ok t) := by
  have hiff : areTokensExpired env.now t = true ↔ t.expiresAt - env.now < 5 * 60 * 1000 := by
    simp only [areTokensExpired, decide_eq_true_eq]
    omega
  refine ⟨hiff, ?_, ?_⟩
  · intro hlt
    simp [getAuthenticatedClient, h, hiff.mpr hlt]
  · intro hge
    have hfalse : areTokensExpired env.now t = false := by
      cases hb : areTokensExpired env.now t
      · rfl
      · exact absurd (hiff.mp hb) (by omega)
    simp [getAuthenticatedClient, h, hfalse]

/-- Witness for claim C2's theorem at a concrete environment. -/
theorem c2_refresh_iff_strictly_within_lookahead_witness :
    getAuthenticatedClient
      { storedTokens := some { accessToken := "a", refreshToken := "r", expiresAt := 0 },
        oauthResult := Except.error "unused",
        refreshResponse := Except.error "refresh failed",
        now := 0 } = Except.error "refresh failed" := by
  have h := c2_refresh_iff_strictly_within_lookahead
    { storedTokens := some { accessToken := "a", refreshToken := "r", expiresAt := 0 },
      oauthResult := Except.error "unused",
      refreshResponse := Except.error "refresh failed",
      now := 0 }
    { accessToken := "a", refreshToken := "r", expiresAt := 0 } rfl
  exact h.2.1 (by decide)

/-- Claim C7: a successful refresh whose response omits a new refresh token
produces (and persists) a record that still carries the refresh token passed
in, and a response that supplies a non-empty refresh token has that new one
stored; the produced record is exactly the one `saveTokens` receives. -/
theorem c7_refresh_token_retention (now : Int) (data : RefreshResponse) (oldToken : String) :
    refreshAccessToken now (Except.ok data) oldToken =
      Except.ok { accessToken := data.access_token,
                  refreshToken := jsOrElse data.refresh_token oldToken,
                  expiresAt := now + data.expires_in * 1000 } ∧
    jsOrElse none oldToken = oldToken ∧
    (∀ s : String, jsOrElse (some s) oldToken = if s = "" then oldToken else s) := by
  exact ⟨rfl, rfl, fun s => rfl⟩

/-- Claim C8, counterexample: the claim says every successful save leaves the
token file owner-only, including saves over a pre-existing file — but
`fs.writeFile`'s `mode` option only applies when the file is created, so a
save over a file with mode `0o644` leaves it at `0o644`, which grants group
and other read access. -/
theorem c8_preexisting_file_mode_counterexample :
    (saveTokens
      { dirExists := true, dirMode := 0o700, fileExists := true,
        fileMode := 0o644, fileContent := none }
      { accessToken := "a", refreshToken := "r", expiresAt := 0 }).fileMode = 0o644 ∧
    0o644 &&& 0o077 ≠ 0 := by
  decide

/-- Claim C8 (amended): whenever `save` creates the token file it creates it
with owner-only read/write (`0o600`, no group/other bits), and whenever it
creates the containing directory it creates it owner-only (`0o700`); a save
over a pre-existing file replaces the content but preserves the file's
existing permission bits. -/
theorem c8_created_nodes_owner_only (fsys : FileSystem) (t : StoredTokens)
    (hf : fsys.fileExists = false) :
    ((saveTokens fsys t).fileMode = 0o600 ∧ (saveTokens fsys t).fileMode &&& 0o077 = 0) ∧
    (fsys.dirExists = false →
      (saveTokens fsys t).dirMode = 0o700 ∧ (saveTokens fsys t).dirMode &&& 0o077 = 0) ∧
    (saveTokens fsys t).fileContent = some t ∧
    (∀ gsys : FileSystem, gsys.fileExists = true →
      (saveTokens gsys t).fileMode = gsys.fileMode) := by
  refine ⟨?_, ?_, ?_, ?_⟩
  · cases hd : fsys.dirExists <;> simp [saveTokens, hd, hf] <;> decide
  · intro hdf
    simp [saveTokens, hdf, hf]
    decide
  · cases hd : fsys.dirExists <;> simp [saveTokens, hd, hf]
  · intro gsys hg
    cases hd : gsys.dirExists <;> simp [saveTokens, hd, hg]

/-- Witness for claim C8's theorem at a concrete filesystem. -/
theorem c8_created_nodes_owner_only_witness :
    (saveTokens
      { dirExists := false, dirMode := 0, fileExists := false,
        fileMode := 0, fileContent := none }
      { accessToken := "a", refreshToken := "r", expiresAt := 0 }).fileMode &&& 0o077 = 0 := by
  have h := c8_created_nodes_owner_only
    { dirExists := false, dirMode := 0, fileExists := false,
      fileMode := 0, fileContent := none }
    { accessToken := "a", refreshToken := "r", expiresAt := 0 } rfl
  exact h.1.2

/-- Claim C6: when the 5-minute timeout fires while the session is still
pending (no valid callback arrived, so the server was never closed), the
session resolves with the timeout error and the server is closed — releasing
the bound loopback port — and the configured delay is exactly
`5 * 60 * 1000` ms.  `startOAuthFlow` takes no caller-supplied cancellation,
so this timeout is enforced unconditionally. -/
theorem c6_timeout_resolves_and_releases_port (st : ServerState)
    (hOpen : st.serverClosed = false) (_hPending : st.resolution = none) :
    (onTimeout st).serverClosed = true ∧
    (onTimeout st).resolution =
      some (Resolution.failure
        "OAuth flow timeout - no callback received within 5 minutes") ∧
    timeoutDelayMs = 5 * 60 * 1000 := by
  refine ⟨?_, ?_, rfl⟩ <;> simp [onTimeout, hOpen]

/-- Witness for claim C6's theorem at the initial listener state. -/
theorem c6_timeout_resolves_and_releases_port_witness :
    (onTimeout initialServerState).serverClosed = true ∧
    (onTimeout initialServerState).resolution =
      some (Resolution.failure
        "OAuth flow timeout - no callback received within 5 minutes") := by
  have h := c6_timeout_resolves_and_releases_port initialServerState rfl rfl
  exact ⟨h.1, h.2.1⟩

/-- Claim C3: a within-quota, loopback-accepted request to the `/callback`
path whose `state` parameter differs from the session's expected state
resolves the session as an error — never with a code — and the token store is
not written by that request.  (When an `error` parameter is also present the
earlier error branch fires; it equally resolves as an error without a store
write.) -/
theorem c3_state_mismatch_resolves_error_no_store_write (expectedState : String) (now : Int)
    (exchange : String → Except String GrantResponse) (st : ServerState) (req : Request)
    (_hListening : st.resolution = none)
    (hQuota : st.requestCount + 1 ≤ MAX_REQUESTS)
    (hOrigin : rejectedByOrigin req.remoteAddress = false)
    (hUrl : urlIsCallback req.url = true)
    (hState : req.state ≠ some expectedState) :
    (∃ msg, (handleRequest expectedState now exchange st req).1.resolution =
       some (Resolution.failure msg)) ∧
    (∀ tk, (handleRequest expectedState now exchange st req).1.resolution ≠
       some (Resolution.success tk)) ∧
    (handleRequest expectedState now exchange st req).1.savedRecords = st.savedRecords := by
  have h1 : ¬ (st.requestCount + 1 > MAX_REQUESTS) := by omega
  by_cases hErr : jsTruthy req.errParam = true
  · refine ⟨⟨"Authorization failed: " ++ req.errParam.getD "", ?_⟩, ?_, ?_⟩ <;>
      simp [handleRequest, h1, hOrigin, hUrl, hErr]
  · have hErr2 : jsTruthy req.errParam = false := by
      cases hb : jsTruthy req.errParam
      · rfl
      · exact absurd hb hErr
    refine ⟨⟨"State mismatch in OAuth callback", ?_⟩, ?_, ?_⟩ <;>
      simp [handleRequest, h1, hOrigin, hUrl, hErr2, hState]

/-- Witness for claim C3's theorem at a concrete mismatching callback. -/
theorem c3_state_mismatch_resolves_error_no_store_write_witness :
    (handleRequest "expected" 0 exchangeStub initialServerState
      { remoteAddress := some "127.0.0.1", url := some "/callback",
        code := some "abc", state := some "wrong", errParam := none }).1.savedRecords =
      initialServerState.savedRecords := by
  have h := c3_state_mismatch_resolves_error_no_store_write "expected" 0 exchangeStub
    initialServerState
    { remoteAddress := some "127.0.0.1", url := some "/callback",
      code := some "abc", state := some "wrong", errParam := none }
    rfl (by decide) (by decide) (by decide) (by decide)
  exact h.2.2

/-- Claim C4: with the default cap `MAX_REQUESTS = 5`, the 6th request of a
session that is still listening is answered 429 and leaves the session
listening: the pending resolution is not consumed, the server is not closed,
and no store write occurs — only the request counter advances to 6. -/
theorem c4_sixth_request_rate_limited (expectedState : String) (now : Int)
    (exchange : String → Except String GrantResponse) (st : ServerState) (req : Request)
    (hCount : st.requestCount = MAX_REQUESTS) (hListening : st.resolution = none) :
    MAX_REQUESTS = 5 ∧
    (handleRequest expectedState now exchange st req).2.status = 429 ∧
    (handleRequest expectedState now exchange st req).1.resolution = none ∧
    (handleRequest expectedState now exchange st req).1.serverClosed = st.serverClosed ∧
    (handleRequest expectedState now exchange st req).1.savedRecords = st.savedRecords ∧
    (handleRequest expectedState now exchange st req).1.requestCount = 6 := by
  have h1 : st.requestCount + 1 > MAX_REQUESTS := by omega
  refine ⟨rfl, ?_, ?_, ?_, ?_, ?_⟩ <;>
    simp [handleRequest, h1, hListening, hCount, MAX_REQUESTS]

/-- Witness for claim C4's theorem at a concrete 6th request. -/
theorem c4_sixth_request_rate_limited_witness :
    (handleRequest "S" 0 exchangeStub
      { requestCount := 5, resolution := none, serverClosed := false, savedRecords := [] }
      { remoteAddress := some "127.0.0.1", url := some "/callback",
        code := some "abc", state := some "S", errParam := none }).2.status = 429 := by
  have h := c4_sixth_request_rate_limited "S" 0 exchangeStub
    { requestCount := 5, resolution := none, serverClosed := false, savedRecords := [] }
    { remoteAddress := some "127.0.0.1", url := some "/callback",
      code := some "abc", state := some "S", errParam := none }
    rfl rfl
  exact h.2.1

/-- Claim C5, counterexample: the claim says a non-loopback request leaves
the session's request counter unchanged, but the handler increments
`requestCount` before the origin check: a request from `192.168.1.7` against
the fresh session is answered 403 yet raises the counter from 0 to 1. -/
theorem c5_nonloopback_increments_counter_counterexample :
    (handleRequest "S" 0 exchangeStub initialServerState
      { remoteAddress := some "192.168.1.7", url := some "/callback",
        code := none, state := none, errParam := none }).2.status = 403 ∧
    (handleRequest "S" 0 exchangeStub initialServerState
      { remoteAddress := some "192.168.1.7", url := some "/callback",
        code := none, state := none, errParam := none }).1.requestCount = 1 ∧
    initialServerState.requestCount = 0 := by
  decide

/-- Claim C5 (amended): a within-quota request whose origin is present and not
one of the three accepted loopback representations is answered 403 and never
resolves the session — pending resolution, server-closed flag and saved
records are untouched — but it does increment the request counter, counting
toward the session's quota.  (An over-quota request is answered 429 before
the origin check runs.) -/
theorem c5_nonloopback_403_increments_only_counter (expectedState : String) (now : Int)
    (exchange : String → Except String GrantResponse) (st : ServerState) (req : Request)
    (hQuota : st.requestCount + 1 ≤ MAX_REQUESTS)
    (hOrigin : rejectedByOrigin req.remoteAddress = true) :
    (handleRequest expectedState now exchange st req).2.status = 403 ∧
    (handleRequest expectedState now exchange st req).1.resolution = st.resolution ∧
    (handleRequest expectedState now exchange st req).1.serverClosed = st.serverClosed ∧
    (handleRequest expectedState now exchange st req).1.savedRecords = st.savedRecords ∧
    (handleRequest expectedState now exchange st req).1.requestCount =
      st.requestCount + 1 := by
  have h1 : ¬ (st.requestCount + 1 > MAX_REQUESTS) := by omega
  refine ⟨?_, ?_, ?_, ?_, ?_⟩ <;> simp [handleRequest, h1, hOrigin]

/-- Witness for claim C5's amended theorem at a concrete non-loopback
request. -/
theorem c5_nonloopback_403_increments_only_counter_witness :
    (handleRequest "S" 0 exchangeStub initialServerState
      { remoteAddress := some "10.0.0.2", url := some "/callback",
        code := none, state := none, errParam := none }).2.status = 403 := by
  have h := c5_nonloopback_403_increments_only_counter "S" 0 exchangeStub initialServerState
    { remoteAddress := some "10.0.0.2", url := some "/callback",
      code := none, state := none, errParam := none }
    (by decide) (by decide)
  exact h.1

/-- The origin rejection condition holds exactly for a present, non-empty
remote address outside the loopback list. -/
theorem rejectedByOrigin_iff (ra : Option String) :
    rejectedByOrigin ra = true ↔
      ∃ s, ra = some s ∧ s ≠ "" ∧ loopbackAddresses.contains s = false := by
  cases ra with
  | none => simp [rejectedByOrigin, jsTruthy]
  | some s => simp [rejectedByOrigin, jsTruthy]

/-- Among the handler's outcomes for a within-quota request, only the origin
branch produces status 403. -/
theorem status403_only_from_origin (expectedState : String) (now : Int)
    (exchange : String → Except String GrantResponse) (st : ServerState) (req : Request)
    (hQuota : st.requestCount + 1 ≤ MAX_REQUESTS) :
    (handleRequest expectedState now exchange st req).2.status = 403 ↔
      rejectedByOrigin req.remoteAddress = true := by
  have h1 : ¬ (st.requestCount + 1 > MAX_REQUESTS) := by omega
  cases hb : rejectedByOrigin req.remoteAddress with
  | true => simp [handleRequest, h1, hb]
  | false =>
      simp only [handleRequest, h1, hb]
      cases hex : exchange (req.code.getD "") <;>
        split_ifs <;> simp [hex]

/-- Claim C10: for a within-quota request, the 403 origin rejection fires if
and only if the socket's remote address is present (defined and non-empty)
and differs from all three accepted loopback representations; a request
whose socket reports no remote address bypasses the origin check entirely
and is handled identically to one arriving from `127.0.0.1`. -/
theorem c10_origin_rejection_iff_present_nonloopback (expectedState : String) (now : Int)
    (exchange : String → Except String GrantResponse) (st : ServerState) (req : Request)
    (hQuota : st.requestCount + 1 ≤ MAX_REQUESTS) :
    ((handleRequest expectedState now exchange st req).2.status = 403 ↔
      ∃ s, req.remoteAddress = some s ∧ s ≠ "" ∧
        loopbackAddresses.contains s = false) ∧
    handleRequest expectedState now exchange st { req with remoteAddress := none } =
      handleRequest expectedState now exchange st
        { req with remoteAddress := some "127.0.0.1" } := by
  constructor
  · exact (status403_only_from_origin expectedState now exchange st req hQuota).trans
      (rejectedByOrigin_iff req.remoteAddress)
  · have e1 : rejectedByOrigin (none : Option String) = false := rfl
    have e2 : rejectedByOrigin (some "127.0.0.1") = false := by decide
    simp [handleRequest, e1, e2]

/-- Witness for claim C10's theorem at a concrete request without a remote
address. -/
theorem c10_origin_rejection_iff_present_nonloopback_witness :
    ¬ (handleRequest "S" 0 exchangeStub initialServerState
      { remoteAddress := none, url := some "/callback",
        code := none, state := none, errParam := none }).2.status = 403 := by
  have h := c10_origin_rejection_iff_present_nonloopback "S" 0 exchangeStub
    initialServerState
    { remoteAddress := none, url := some "/callback",
      code := none, state := none, errParam := none }
    (by decide)
  intro hc
  obtain ⟨s, hs, -, -⟩ := h.1.mp hc
  exact Option.noConfusion hs

/-- No character of an escaped fragment is a literal angle bracket:
`escapeChar` maps `<` and `>` to entities and leaves only non-special
characters in place. -/
theorem angle_not_mem_escapeChar (c : Char) : '<' ∉ escapeChar c ∧ '>' ∉ escapeChar c := by
  unfold escapeChar
  split_ifs with h1 h2 h3 h4 h5
  · decide
  · decide
  · decide
  · decide
  · decide
  · constructor
    · simp only [List.mem_singleton]
      exact fun h => h2 h.symm
    · simp only [List.mem_singleton]
      exact fun h => h3 h.symm

/-- Escaped output never contains a literal angle bracket. -/
theorem angle_not_mem_escapeList (l : List Char) :
    '<' ∉ escapeList l ∧ '>' ∉ escapeList l := by
  induction l with
  | nil => simp [escapeList]
  | cons c t ih =>
      have hc := angle_not_mem_escapeChar c
      simp only [escapeList, List.mem_append]
      exact ⟨fun h => h.elim (fun h1 => hc.1 h1) (fun h1 => ih.1 h1),
             fun h => h.elim (fun h1 => hc.2 h1) (fun h1 => ih.2 h1)⟩

/-- The query-string value of the XSS scenario. -/
def scriptAttack : String := "<script>alert(1)</script>"

/-- Claim C9: escaped query data never contains a literal angle bracket (so
no HTML response that embeds query-string data — the `error` page is the
only one — can reflect a tag), and for the scenario callback carrying
`error=<script>alert(1)</script>` the handler's response is the 200 page
whose body embeds the escaped form `&lt;script&gt;...` and not the literal
`<script`, declaring `text/html; charset=utf-8`. -/
theorem c9_query_data_escaped :
    (∀ s : String, '<' ∉ (escapeHtml s).data) ∧
    (handleRequest "S" 0 exchangeStub initialServerState
      { remoteAddress := some "127.0.0.1", url := some "/callback",
        code := none, state := some "S", errParam := some scriptAttack }).2 =
      { status := 200, contentType := "text/html; charset=utf-8",
        body := authorizationFailedBody scriptAttack } ∧
    containsSub "&lt;script&gt;alert(1)&lt;/script&gt;".data
      (authorizationFailedBody scriptAttack).data = true ∧
    containsSub "<script".data (authorizationFailedBody scriptAttack).data = false := by
  refine ⟨fun s => (angle_not_mem_escapeList s.data).1, ?_, ?_, ?_⟩
  · decide
  · decide
  · decide

end Spotify
